import Mathlib

/-!
Shallow embedding of the `local-data-engineering-environment` repository:
`run_pipeline.py` (a linear CSV → DuckDB → analytics → CSV-export pipeline)
and `test_setup.py` (an environment validator).  Numeric CSV fields are
modelled exactly: quantities as integers, prices as rationals; SQL NULL is
`Option.none`, and the SQL aggregates `SUM`/`AVG` follow SQL semantics
(NULL inputs are skipped, the aggregate of no non-NULL input is NULL).
-/

/-- One row of the input CSV / of the `sales_analytics.sales_data` table.
Fields are those used by the SQL in `run_pipeline.py`; each is nullable. -/
structure SalesRecord where
  date : Option String
  product_category : Option String
  region : Option String
  quantity : Option Int
  price : Option Rat
deriving Repr, DecidableEq

/-- SQL `SUM` over nullable rationals: NULLs are skipped, and the sum is
NULL when every input is NULL (also when there is no input). -/
def sqlSumQ (l : List (Option Rat)) : Option Rat :=
  l.foldl
    (fun acc x =>
      match acc, x with
      | none, none => none
      | none, some v => some v
      | some s, none => some s
      | some s, some v => some (s + v))
    none

/-- SQL `SUM` over nullable integers (same NULL-skipping semantics). -/
def sqlSumInt (l : List (Option Int)) : Option Int :=
  l.foldl
    (fun acc x =>
      match acc, x with
      | none, none => none
      | none, some v => some v
      | some s, none => some s
      | some s, some v => some (s + v))
    none

/-- SQL `AVG` over nullable rationals: the mean of the non-NULL inputs,
NULL when there are none. -/
def sqlAvg (l : List (Option Rat)) : Option Rat :=
  let vs := l.filterMap id
  if vs.length = 0 then none else some (vs.foldl (· + ·) 0 / (vs.length : Rat))

/-- SQL `ROUND(x, 2)`: round to two decimal places. -/
def round2 (q : Rat) : Rat := ((round (q * 100) : Int) : Rat) / 100

/-- SQL expression `quantity * price` for one row: NULL if either factor
is NULL. -/
def rowRevenueOpt (r : SalesRecord) : Option Rat :=
  match r.quantity, r.price with
  | some q, some p => some ((q : Rat) * p)
  | _, _ => none

/-- Log events emitted by the pipeline runner of `run_pipeline.py`,
distinguishing the two `except` handlers of `main` (the dedicated
`FileNotFoundError` handler versus the generic `Exception` handler). -/
inductive LogEvent where
  | info (msg : String)
  | warning (msg : String)
  | errorFileNotFound (msg : String)
  | errorPipelineFailed (msg : String)
deriving Repr, DecidableEq

/-- The `NULL`-check of `run_quality_checks` (lines 78-93): true when some
row has a NULL `date`, `product_category`, `quantity` or `price`
(the query does not inspect `region`). -/
def anyNullViolation (rows : List SalesRecord) : Bool :=
  rows.any (fun r =>
    r.date.isNone || r.product_category.isNone || r.quantity.isNone || r.price.isNone)

/-- The business-rule check of `run_quality_checks` (lines 96-108): true
when some row has `quantity <= 0` or `price <= 0`.  As in SQL, a NULL
field never satisfies the `<=` comparison. -/
def anyBusinessViolation (rows : List SalesRecord) : Bool :=
  (rows.any (fun r => match r.quantity with | some q => q ≤ 0 | none => false)) ||
  (rows.any (fun r => match r.price with | some p => p ≤ 0 | none => false))

/-- The log lines produced by `run_quality_checks`: one line per check,
a warning when the check finds violations, an info line otherwise. -/
def qualityLogs (rows : List SalesRecord) : List LogEvent :=
  [ (if anyNullViolation rows then
      LogEvent.warning "NULL values detected in data"
    else
      LogEvent.info "No NULL values found")
  , (if anyBusinessViolation rows then
      LogEvent.warning "Business rule violations"
    else
      LogEvent.info "All business rules satisfied") ]

/-- One row of the summary-statistics result set (`summary_query`). -/
structure SummaryRow where
  total_transactions : Nat
  total_revenue : Option Rat
  avg_price : Option Rat
  avg_quantity : Option Rat
deriving Repr, DecidableEq

/-- One row of the category-analysis result set (`category_query`). -/
structure CategoryRow where
  product_category : Option String
  transactions : Nat
  total_units_sold : Option Int
  total_revenue : Option Rat
  avg_price : Option Rat
deriving Repr, DecidableEq

/-- One row of the regional-analysis result set (`regional_query`). -/
structure RegionalRow where
  region : Option String
  transactions : Nat
  total_units_sold : Option Int
  total_revenue : Option Rat
deriving Repr, DecidableEq

/-- The keys of a SQL `GROUP BY` over the given column values, one entry
per distinct value (SQL groups all NULL keys together). -/
def distinctKeys (l : List (Option String)) : List (Option String) :=
  l.foldl (fun acc k => if k ∈ acc then acc else acc ++ [k]) []

/-- `ORDER BY total_revenue DESC` comparison on nullable revenue totals:
`optRevLEb a b` says `a` sorts at or below `b`; DuckDB places NULLs last
in a descending sort, so NULL is the bottom element. -/
def optRevLEb : Option Rat → Option Rat → Bool
  | none, _ => true
  | some _, none => false
  | some x, some y => x ≤ y

/-- Row order of the category result set: descending by `total_revenue`. -/
def catGe (a b : CategoryRow) : Prop :=
  optRevLEb b.total_revenue a.total_revenue = true

/-- Row order of the regional result set: descending by `total_revenue`. -/
def regGe (a b : RegionalRow) : Prop :=
  optRevLEb b.total_revenue a.total_revenue = true

instance : DecidableRel catGe := fun _ _ => instDecidableEqBool _ _

instance : DecidableRel regGe := fun _ _ => instDecidableEqBool _ _

/-- The aggregates of `category_query` for one `GROUP BY` group. -/
def mkCategoryRow (k : Option String) (group : List SalesRecord) : CategoryRow :=
  { product_category := k
    transactions := group.length
    total_units_sold := sqlSumInt (group.map (·.quantity))
    total_revenue := sqlSumQ (group.map rowRevenueOpt)
    avg_price := (sqlAvg (group.map (·.price))).map round2 }

/-- The aggregates of `regional_query` for one `GROUP BY` group. -/
def mkRegionalRow (k : Option String) (group : List SalesRecord) : RegionalRow :=
  { region := k
    transactions := group.length
    total_units_sold := sqlSumInt (group.map (·.quantity))
    total_revenue := sqlSumQ (group.map rowRevenueOpt) }

/-- The category result set: `GROUP BY product_category`, then
`ORDER BY total_revenue DESC` (lines 131-142 of `run_pipeline.py`). -/
def categoryAnalysis (rows : List SalesRecord) : List CategoryRow :=
  List.insertionSort catGe
    ((distinctKeys (rows.map (·.product_category))).map
      (fun k => mkCategoryRow k (rows.filter (fun r => r.product_category = k))))

/-- The regional result set: `GROUP BY region`, then
`ORDER BY total_revenue DESC` (lines 146-157 of `run_pipeline.py`). -/
def regionalAnalysis (rows : List SalesRecord) : List RegionalRow :=
  List.insertionSort regGe
    ((distinctKeys (rows.map (·.region))).map
      (fun k => mkRegionalRow k (rows.filter (fun r => r.region = k))))

/-- The summary result set (`summary_query`, lines 119-127). -/
def summaryAnalysis (rows : List SalesRecord) : SummaryRow :=
  { total_transactions := rows.length
    total_revenue := sqlSumQ (rows.map rowRevenueOpt)
    avg_price := (sqlAvg (rows.map (·.price))).map round2
    avg_quantity := (sqlAvg (rows.map (fun r => (r.quantity).map (fun q => (q : Rat))))).map round2 }

/-- A calendar timestamp at second granularity, the value observed by
`datetime.now()` in `export_results`.  Python `datetime` years range
over 1..9999. -/
structure DateTime where
  year : Nat
  month : Nat
  day : Nat
  hour : Nat
  minute : Nat
  second : Nat
deriving Repr, DecidableEq

/-- The ranges a Python `datetime` value satisfies. -/
def validDT (t : DateTime) : Prop :=
  1 ≤ t.year ∧ t.year ≤ 9999 ∧ 1 ≤ t.month ∧ t.month ≤ 12 ∧ 1 ≤ t.day ∧ t.day ≤ 31 ∧
    t.hour ≤ 23 ∧ t.minute ≤ 59 ∧ t.second ≤ 59

instance (t : DateTime) : Decidable (validDT t) := by
  unfold validDT
  infer_instance

/-- The decimal digit character for `n % 10`. -/
def digitChar10 (n : Nat) : Char := Char.ofNat (48 + n % 10)

/-- Two-digit zero-padded decimal rendering (strftime `%m %d %H %M %S`). -/
def pad2 (n : Nat) : String := String.mk [digitChar10 (n / 10), digitChar10 n]

/-- Four-digit zero-padded decimal rendering (strftime `%Y`). -/
def pad4 (n : Nat) : String :=
  String.mk [digitChar10 (n / 1000), digitChar10 (n / 100), digitChar10 (n / 10), digitChar10 n]

/-- `datetime.strftime("%Y%m%d_%H%M%S")` as used at line 169 of
`run_pipeline.py`. -/
def formatTS (t : DateTime) : String :=
  pad4 t.year ++ pad2 t.month ++ pad2 t.day ++ "_" ++
    pad2 t.hour ++ pad2 t.minute ++ pad2 t.second

/-- The file name of the summary export for timestamp string `ts`. -/
def summaryName (ts : String) : String := "summary_stats_" ++ ts ++ ".csv"

/-- The file name of the category export for timestamp string `ts`. -/
def categoryName (ts : String) : String := "category_analysis_" ++ ts ++ ".csv"

/-- The file name of the regional export for timestamp string `ts`. -/
def regionalName (ts : String) : String := "regional_analysis_" ++ ts ++ ".csv"

/-- The three file names written by one `export_results` invocation, in
write order (lines 171-179). -/
def exportFilenames (ts : String) : List String :=
  [summaryName ts, categoryName ts, regionalName ts]

/-- An error escaping the pipeline body, as classified by the two
`except` clauses of `main` (lines 240-245). -/
inductive PipelineError where
  | fileNotFound (msg : String)
  | other (msg : String)
deriving Repr, DecidableEq

/-- The filesystem visible to the pipeline: the parsed contents of each
existing data file, and the set of existing directories, each directory
given by its path components. -/
structure Fs where
  file : String → Option (List SalesRecord)
  dirs : List (List String)

/-- The command-line arguments of `run_pipeline.py`; the output
directory is given by its path components. -/
structure Args where
  dataFile : String
  outputDir : List String
  verbose : Bool
  noExport : Bool

/-- The world the run observes: the filesystem, the clock reading taken
by `datetime.now()` during export, and the prior contents of the
destination table (`none` when the table does not exist). -/
structure Env where
  fs : Fs
  now : DateTime
  table0 : Option (List SalesRecord)

/-- `pathlib.Path.mkdir(exist_ok=True)` on a directory path: succeeds
without change when the directory exists; creates it when absent and its
parent exists (a single-component relative path's parent is the working
directory); raises `FileNotFoundError` when the parent is absent. -/
def mkdirExistOk (dirs : List (List String)) (p : List String) :
    Except PipelineError (List (List String)) :=
  if p ∈ dirs then Except.ok dirs
  else if p.length ≤ 1 ∨ p.dropLast ∈ dirs then Except.ok (p :: dirs)
  else Except.error (PipelineError.fileNotFound "missing parent of output directory")

/-- The observable outcome of one `main` invocation of
`run_pipeline.py`: the exit code, the emitted log events, the final
destination-table contents (`none` when no table exists), the final set
of directories, and the files written, each as (directory, file name). -/
structure RunResult where
  exitCode : Nat
  logs : List LogEvent
  table : Option (List SalesRecord)
  dirs : List (List String)
  written : List (List String × String)
deriving Repr

/-- The message of the `PipelineStepFailed` in which dlt wraps an
exception that escapes a resource during `pipeline.run`; it embeds the
original exception's text. -/
def stepFailedMsg (orig : String) : String := "PipelineStepFailed: " ++ orig

/-- `main` of `run_pipeline.py` (lines 183-245): load with replace
disposition, quality checks, analytics, optional export, with the
`FileNotFoundError` and generic handlers mapping any raised error to
exit code 1.  When the data file is absent, the `FileNotFoundError` of
lines 50-51 is raised inside the `@dlt.resource` body, which runs lazily
during `pipeline.run` (line 66): dlt wraps it in `PipelineStepFailed`
before it reaches `main`, so it is caught by the generic
`except Exception` handler (line 243) — not by the dedicated
`except FileNotFoundError` handler (line 240) — and no table is
written.  The dedicated handler fires only for a `FileNotFoundError`
raised directly in `main`'s `try`, such as the export step's `mkdir`
on a path with a missing parent. -/
def runPipeline (args : Args) (env : Env) : RunResult :=
  match env.fs.file args.dataFile with
  | none =>
      { exitCode := 1
        logs := [LogEvent.errorPipelineFailed
          ("Pipeline failed: " ++ stepFailedMsg ("Data file not found: " ++ args.dataFile))]
        table := env.table0
        dirs := env.fs.dirs
        written := [] }
  | some rows =>
      let table := some rows
      let qlogs := qualityLogs rows
      let _summary := summaryAnalysis rows
      let _category := categoryAnalysis rows
      let _regional := regionalAnalysis rows
      if args.noExport then
        { exitCode := 0
          logs := qlogs ++ [LogEvent.info "Skipping export (--no-export flag set)",
            LogEvent.info "PIPELINE COMPLETED SUCCESSFULLY"]
          table := table
          dirs := env.fs.dirs
          written := [] }
      else
        match mkdirExistOk env.fs.dirs args.outputDir with
        | Except.error (PipelineError.fileNotFound m) =>
            { exitCode := 1
              logs := qlogs ++ [LogEvent.errorFileNotFound m]
              table := table
              dirs := env.fs.dirs
              written := [] }
        | Except.error (PipelineError.other m) =>
            { exitCode := 1
              logs := qlogs ++ [LogEvent.errorPipelineFailed m]
              table := table
              dirs := env.fs.dirs
              written := [] }
        | Except.ok dirs1 =>
            { exitCode := 0
              logs := qlogs ++ [LogEvent.info "PIPELINE COMPLETED SUCCESSFULLY"]
              table := table
              dirs := dirs1
              written := (exportFilenames (formatTS env.now)).map (fun f => (args.outputDir, f)) }

/-- The output directory can be used: it exists, or it can be created
because its parent exists. -/
def dirOk (args : Args) (env : Env) : Prop :=
  args.outputDir ∈ env.fs.dirs ∨ args.outputDir.length ≤ 1 ∨
    args.outputDir.dropLast ∈ env.fs.dirs

/-- The export step can run: export is skipped, or the output directory
can be used. -/
def exportEnvOk (args : Args) (env : Env) : Prop :=
  args.noExport = true ∨ dirOk args env

/-- A line printed by `test_setup.py`, one constructor per kind of
reported result. -/
inductive OutLine where
  | pythonPass (major minor micro : Nat)
  | pythonFail (major minor : Nat)
  | pkgPass (name : String)
  | pkgFail (name : String)
  | versionOk (lib : String)
  | versionFail (lib : String)
  | dirPass (name : String)
  | dirFail (name : String)
  | samplePass
  | sampleWarn
  | reqPass
  | reqFail
  | allPassed
  | someFailed
  | remediation
deriving Repr, DecidableEq

/-- The environment `test_setup.py` observes: the interpreter version,
which modules import successfully, which of those expose a `__version__`
attribute, which paths are existing directories, and which paths are
existing files. -/
structure SysEnv where
  pyMajor : Nat
  pyMinor : Nat
  pyMicro : Nat
  installed : String → Bool
  hasVersionAttr : String → Bool
  isDir : String → Bool
  fileExists : String → Bool

/-- The six required packages of `check_package_imports` (lines 28-35),
in check order. -/
def packageNames : List String :=
  ["dlt", "duckdb", "pandas", "jupyter", "notebook", "ipykernel"]

/-- `check_python_version` (lines 14-22): pass unless the major version
is below 3, or it is exactly 3 with minor below 9. -/
def checkPythonVersion (e : SysEnv) : Bool × List OutLine :=
  if e.pyMajor < 3 ∨ (e.pyMajor = 3 ∧ e.pyMinor < 9) then
    (false, [OutLine.pythonFail e.pyMajor e.pyMinor])
  else
    (true, [OutLine.pythonPass e.pyMajor e.pyMinor e.pyMicro])

/-- `check_package_imports` (lines 25-46): one pass/fail line per
package; overall pass iff every import succeeds. -/
def checkPackageImports (e : SysEnv) : Bool × List OutLine :=
  (packageNames.all e.installed,
    packageNames.map (fun p =>
      if e.installed p then OutLine.pkgPass p else OutLine.pkgFail p))

/-- The three libraries whose versions `check_package_versions` reports
(lines 49-82). -/
def versionLibs : List String := ["dlt", "duckdb", "pandas"]

/-- One version probe: `import lib; lib.__version__` succeeds iff the
module imports and carries a `__version__` attribute. -/
def versionProbe (e : SysEnv) (lib : String) : Bool :=
  e.installed lib && e.hasVersionAttr lib

/-- `check_package_versions` (lines 49-82): one line per library,
overall pass iff all three probes succeed. -/
def checkPackageVersions (e : SysEnv) : Bool × List OutLine :=
  (versionLibs.all (versionProbe e),
    versionLibs.map (fun lib =>
      if versionProbe e lib then OutLine.versionOk lib else OutLine.versionFail lib))

/-- `check_directory_structure` (lines 85-100): `notebooks` and `data`
must exist as directories. -/
def checkDirectoryStructure (e : SysEnv) : Bool × List OutLine :=
  (["notebooks", "data"].all e.isDir,
    ["notebooks", "data"].map (fun d =>
      if e.isDir d then OutLine.dirPass d else OutLine.dirFail d))

/-- `check_sample_data` (lines 103-113): prints a pass line or a warning
line, and returns `True` in both branches — missing sample data is not a
critical failure. -/
def checkSampleData (e : SysEnv) : Bool × List OutLine :=
  if e.fileExists "data/sample.csv" then (true, [OutLine.samplePass])
  else (true, [OutLine.sampleWarn])

/-- `check_requirements_file` (lines 116-126). -/
def checkRequirementsFile (e : SysEnv) : Bool × List OutLine :=
  if e.fileExists "requirements.txt" then (true, [OutLine.reqPass])
  else (false, [OutLine.reqFail])

/-- Everything printed by the six checks of `main` of `test_setup.py`
(lines 136-143), in call order; the list literal evaluates every check,
so every check's lines are printed before the verdict. -/
def checkLines (e : SysEnv) : List OutLine :=
  (checkPythonVersion e).2 ++ (checkPackageImports e).2 ++ (checkPackageVersions e).2 ++
    (checkDirectoryStructure e).2 ++ (checkSampleData e).2 ++ (checkRequirementsFile e).2

/-- The exit code and printed lines of `main`: the six check results in
order, then a success banner with exit 0 when all six booleans are true,
else a failure banner and troubleshooting section with exit 1. -/
def testSetupMain (e : SysEnv) : Nat × List OutLine :=
  if (checkPythonVersion e).1 && (checkPackageImports e).1 && (checkPackageVersions e).1 &&
      (checkDirectoryStructure e).1 && (checkSampleData e).1 && (checkRequirementsFile e).1 then
    (0, checkLines e ++ [OutLine.allPassed])
  else
    (1, checkLines e ++ [OutLine.someFailed, OutLine.remediation])

/-! ### Helper lemmas -/

theorem digitChar10_inj {a b : Nat} (h : digitChar10 a = digitChar10 b) :
    a % 10 = b % 10 := by
  have ha : a % 10 < 10 := Nat.mod_lt _ (by norm_num)
  have hb : b % 10 < 10 := Nat.mod_lt _ (by norm_num)
  have key : ∀ x < 10, ∀ y < 10, Char.ofNat (48 + x) = Char.ofNat (48 + y) → x = y := by decide
  exact key _ ha _ hb h

theorem formatTS_data (t : DateTime) :
    (formatTS t).data =
      [digitChar10 (t.year / 1000), digitChar10 (t.year / 100), digitChar10 (t.year / 10),
        digitChar10 t.year, digitChar10 (t.month / 10), digitChar10 t.month,
        digitChar10 (t.day / 10), digitChar10 t.day, '_',
        digitChar10 (t.hour / 10), digitChar10 t.hour, digitChar10 (t.minute / 10),
        digitChar10 t.minute, digitChar10 (t.second / 10), digitChar10 t.second] := rfl

theorem formatTS_inj {t1 t2 : DateTime} (h1 : validDT t1) (h2 : validDT t2)
    (h : formatTS t1 = formatTS t2) : t1 = t2 := by
  have hd := congrArg String.data h
  rw [formatTS_data, formatTS_data] at hd
  simp only [List.cons.injEq, and_true] at hd
  obtain ⟨e1, e2, e3, e4, e5, e6, e7, e8, _, e9, e10, e11, e12, e13, e14⟩ := hd
  unfold validDT at h1 h2
  cases t1; cases t2
  simp only [DateTime.mk.injEq]
  simp only at h1 h2 e1 e2 e3 e4 e5 e6 e7 e8 e9 e10 e11 e12 e13 e14
  refine ⟨?_, ?_, ?_, ?_, ?_, ?_⟩
  · have q1 := digitChar10_inj e1
    have q2 := digitChar10_inj e2
    have q3 := digitChar10_inj e3
    have q4 := digitChar10_inj e4
    omega
  · have q1 := digitChar10_inj e5
    have q2 := digitChar10_inj e6
    omega
  · have q1 := digitChar10_inj e7
    have q2 := digitChar10_inj e8
    omega
  · have q1 := digitChar10_inj e9
    have q2 := digitChar10_inj e10
    omega
  · have q1 := digitChar10_inj e11
    have q2 := digitChar10_inj e12
    omega
  · have q1 := digitChar10_inj e13
    have q2 := digitChar10_inj e14
    omega

theorem nameAppend_inj {p s a b : String} (h : p ++ a ++ s = p ++ b ++ s) : a = b := by
  have hd := congrArg String.data h
  rw [String.data_append, String.data_append, String.data_append, String.data_append] at hd
  exact String.ext (List.append_cancel_left (List.append_cancel_right hd))

theorem prefixed_ne {c1 c2 : Char} {t1 t2 : List Char} {p1 p2 : String} (x y s1 s2 : String)
    (hp1 : p1.data = c1 :: t1) (hp2 : p2.data = c2 :: t2) (hc : c1 ≠ c2) :
    p1 ++ x ++ s1 ≠ p2 ++ y ++ s2 := by
  intro h
  apply hc
  have hd := congrArg String.data h
  rw [String.data_append, String.data_append, String.data_append, String.data_append,
    hp1, hp2] at hd
  simpa using congrArg List.head? hd

theorem exportFilenames_disjoint {a b : String} (h : a ≠ b) :
    List.Disjoint (exportFilenames a) (exportFilenames b) := by
  intro x hx hy
  simp only [exportFilenames, List.mem_cons, List.not_mem_nil, or_false] at hx hy
  rcases hx with rfl | rfl | rfl <;> rcases hy with he | he | he
  · exact h (nameAppend_inj he)
  · exact prefixed_ne a b ".csv" ".csv" rfl rfl (by decide) he
  · exact prefixed_ne a b ".csv" ".csv" rfl rfl (by decide) he
  · exact prefixed_ne a b ".csv" ".csv" rfl rfl (by decide) he
  · exact h (nameAppend_inj he)
  · exact prefixed_ne a b ".csv" ".csv" rfl rfl (by decide) he
  · exact prefixed_ne a b ".csv" ".csv" rfl rfl (by decide) he
  · exact prefixed_ne a b ".csv" ".csv" rfl rfl (by decide) he
  · exact h (nameAppend_inj he)

theorem optRevLEb_total (a b : Option Rat) :
    optRevLEb a b = true ∨ optRevLEb b a = true := by
  cases a <;> cases b <;> simp only [optRevLEb, decide_eq_true_eq] <;> try tauto
  exact le_total _ _

theorem optRevLEb_trans {a b c : Option Rat} (h1 : optRevLEb a b = true)
    (h2 : optRevLEb b c = true) : optRevLEb a c = true := by
  cases a <;> cases b <;> cases c <;>
    simp only [optRevLEb, decide_eq_true_eq] at * <;> try tauto
  exact le_trans h1 h2

instance : IsTotal CategoryRow catGe := ⟨fun _ _ => optRevLEb_total _ _⟩

instance : IsTrans CategoryRow catGe := ⟨fun _ _ _ h1 h2 => optRevLEb_trans h2 h1⟩

instance : IsTotal RegionalRow regGe := ⟨fun _ _ => optRevLEb_total _ _⟩

instance : IsTrans RegionalRow regGe := ⟨fun _ _ _ h1 h2 => optRevLEb_trans h2 h1⟩

theorem mkdirExistOk_isOk {dirs : List (List String)} {p : List String}
    (h : p ∈ dirs ∨ p.length ≤ 1 ∨ p.dropLast ∈ dirs) :
    ∃ dirs1, mkdirExistOk dirs p = Except.ok dirs1 := by
  unfold mkdirExistOk
  split
  · exact ⟨dirs, rfl⟩
  · split
    · exact ⟨p :: dirs, rfl⟩
    · rename_i hmem hpar
      exact absurd h (by tauto)

theorem runPipeline_table {args : Args} {env : Env} {rows : List SalesRecord}
    (h : env.fs.file args.dataFile = some rows) :
    (runPipeline args env).table = some rows := by
  unfold runPipeline
  rw [h]
  dsimp only
  split
  · rfl
  · split <;> rfl

theorem runPipeline_noExport_fields {args : Args} {env : Env} {rows : List SalesRecord}
    (h : env.fs.file args.dataFile = some rows) (hne : args.noExport = true) :
    (runPipeline args env).exitCode = 0 ∧
      (runPipeline args env).logs =
        qualityLogs rows ++ [LogEvent.info "Skipping export (--no-export flag set)",
          LogEvent.info "PIPELINE COMPLETED SUCCESSFULLY"] ∧
      (runPipeline args env).written = [] := by
  unfold runPipeline
  rw [h]
  simp [hne]

theorem runPipeline_export_fields {args : Args} {env : Env} {rows : List SalesRecord}
    (h : env.fs.file args.dataFile = some rows) (hne : args.noExport = false)
    (hd : dirOk args env) :
    (runPipeline args env).exitCode = 0 ∧
      (runPipeline args env).logs =
        qualityLogs rows ++ [LogEvent.info "PIPELINE COMPLETED SUCCESSFULLY"] ∧
      (runPipeline args env).written =
        (exportFilenames (formatTS env.now)).map (fun f => (args.outputDir, f)) := by
  obtain ⟨d1, hok⟩ := mkdirExistOk_isOk hd
  unfold runPipeline
  rw [h]
  dsimp only
  rw [hne]
  simp only [Bool.false_eq_true, if_false]
  rw [hok]
  exact ⟨rfl, rfl, rfl⟩

theorem qualityLogs_warning {rows : List SalesRecord}
    (hviol : ∃ r ∈ rows, r.quantity = none ∨ ∃ p, r.price = some p ∧ p ≤ 0) :
    ∃ m, LogEvent.warning m ∈ qualityLogs rows := by
  obtain ⟨r, hr, hcase⟩ := hviol
  rcases hcase with hq | ⟨p, hp, hle⟩
  · refine ⟨"NULL values detected in data", ?_⟩
    have hnull : anyNullViolation rows = true := by
      unfold anyNullViolation
      rw [List.any_eq_true]
      exact ⟨r, hr, by simp [hq]⟩
    simp [qualityLogs, hnull]
  · refine ⟨"Business rule violations", ?_⟩
    have hbiz : anyBusinessViolation rows = true := by
      unfold anyBusinessViolation
      rw [Bool.or_eq_true, List.any_eq_true, List.any_eq_true]
      right
      exact ⟨r, hr, by rw [hp]; exact decide_eq_true hle⟩
    simp [qualityLogs, hbiz]

theorem checkSampleData_fst (e : SysEnv) : (checkSampleData e).1 = true := by
  unfold checkSampleData
  split <;> rfl

theorem testSetupMain_fst (e : SysEnv) :
    (testSetupMain e).1 =
      if (checkPythonVersion e).1 && (checkPackageImports e).1 && (checkPackageVersions e).1 &&
          (checkDirectoryStructure e).1 && (checkRequirementsFile e).1 then 0 else 1 := by
  unfold testSetupMain
  rw [checkSampleData_fst]
  simp only [Bool.and_true]
  split <;> rfl

theorem checkLines_subset (e : SysEnv) : checkLines e ⊆ (testSetupMain e).2 := by
  unfold testSetupMain
  split <;> exact List.subset_append_left _ _

/-! ### Concrete fixtures used by witnesses -/

def rowW : SalesRecord :=
  ⟨some "2024-01-01", some "Electronics", some "North", some 2, some 3⟩

def rowViol : SalesRecord :=
  ⟨some "2024-01-01", some "Electronics", some "North", none, some 3⟩

def rowsW : List SalesRecord := [rowW]

def rowsViol : List SalesRecord := [rowViol]

def dtW : DateTime := ⟨2024, 10, 12, 15, 30, 7⟩

def dtW2 : DateTime := ⟨2024, 10, 12, 15, 30, 8⟩

def argsW : Args := ⟨"data/sample.csv", ["output"], false, false⟩

def argsNoExp : Args := ⟨"data/sample.csv", ["output"], false, true⟩

def argsMissing : Args := ⟨"missing.csv", ["output"], false, false⟩

def envMissing : Env := ⟨⟨fun _ => none, []⟩, dtW, none⟩

def envW : Env := ⟨⟨fun _ => some rowsW, [["output"]]⟩, dtW, none⟩

def envW2 : Env := ⟨⟨fun _ => some rowsW, [["output"]]⟩, dtW2, none⟩

def envViol : Env := ⟨⟨fun _ => some rowsViol, [["output"]]⟩, dtW, none⟩

/-! ### The claims -/

/-- C1 as stated is false: at a concrete missing data file the run does
exit with code 1, but no log event goes through the dedicated
`FileNotFoundError` handler — the resource's `FileNotFoundError`
surfaces from `pipeline.run` wrapped in `PipelineStepFailed`, so the
generic `except Exception` handler (line 243) logs the failure. -/
theorem claim1_counterexample :
    (runPipeline argsMissing envMissing).exitCode = 1 ∧
    (∀ m, LogEvent.errorFileNotFound m ∉ (runPipeline argsMissing envMissing).logs) ∧
    (∃ m, LogEvent.errorPipelineFailed m ∈ (runPipeline argsMissing envMissing).logs) := by
  refine ⟨rfl, ?_, ?_⟩
  · intro m hm
    simp [runPipeline, argsMissing, envMissing] at hm
  · exact ⟨"Pipeline failed: " ++ stepFailedMsg ("Data file not found: " ++ "missing.csv"),
      List.mem_singleton_self _⟩

/-- C1 (amended): for every data file path that does not refer to an
existing file, the run exits with code 1 and creates no database table
and writes no file; the error is logged by the generic `Exception`
handler as a pipeline failure wrapping the file-not-found text, and the
dedicated `FileNotFoundError` handler never fires, because dlt wraps
the resource's `FileNotFoundError` in `PipelineStepFailed` before it
reaches `main`. -/
theorem claim1_missing_file_aborts (args : Args) (env : Env)
    (h : env.fs.file args.dataFile = none) :
    (runPipeline args env).exitCode = 1 ∧
    LogEvent.errorPipelineFailed
        ("Pipeline failed: " ++ stepFailedMsg ("Data file not found: " ++ args.dataFile)) ∈
      (runPipeline args env).logs ∧
    (∀ m, LogEvent.errorFileNotFound m ∉ (runPipeline args env).logs) ∧
    (runPipeline args env).table = env.table0 ∧
    (runPipeline args env).written = [] := by
  unfold runPipeline
  rw [h]
  dsimp only
  refine ⟨rfl, List.mem_singleton_self _, ?_, rfl, rfl⟩
  intro m hm
  simp at hm

theorem claim1_witness :
    (runPipeline argsMissing envMissing).exitCode = 1 ∧
    LogEvent.errorPipelineFailed
        ("Pipeline failed: " ++ stepFailedMsg ("Data file not found: " ++ "missing.csv")) ∈
      (runPipeline argsMissing envMissing).logs ∧
    (∀ m, LogEvent.errorFileNotFound m ∉ (runPipeline argsMissing envMissing).logs) ∧
    (runPipeline argsMissing envMissing).table = envMissing.table0 ∧
    (runPipeline argsMissing envMissing).written = [] :=
  claim1_missing_file_aborts argsMissing envMissing rfl

/-- C2: for every well-formed input CSV with `N` data rows, after the run
the destination table holds exactly those `N` rows, whatever the table
held before (replace disposition). -/
theorem claim2_replace_rowcount (args : Args) (env : Env) (rows : List SalesRecord)
    (N : Nat) (h : env.fs.file args.dataFile = some rows) (hN : rows.length = N)
    (t0 : Option (List SalesRecord)) :
    (runPipeline args { env with table0 := t0 }).table = some rows ∧
    ((runPipeline args { env with table0 := t0 }).table).map List.length = some N := by
  have h' : ({ env with table0 := t0 } : Env).fs.file args.dataFile = some rows := h
  have ht := runPipeline_table h'
  refine ⟨ht, ?_⟩
  rw [ht]
  simp [hN]

theorem claim2_witness :
    (runPipeline argsW { envW with table0 := some [] }).table = some rowsW ∧
    ((runPipeline argsW { envW with table0 := some [] }).table).map List.length = some 1 :=
  claim2_replace_rowcount argsW envW rowsW 1 rfl rfl (some [])

/-- C3: for every input CSV containing a row with NULL `quantity` or a
non-positive `price`, the quality-check step only logs a warning, the run
continues through analytics and export, and it exits with code 0
(given an environment in which the export step itself can run). -/
theorem claim3_violations_warn_only (args : Args) (env : Env) (rows : List SalesRecord)
    (h : env.fs.file args.dataFile = some rows)
    (hviol : ∃ r ∈ rows, r.quantity = none ∨ ∃ p, r.price = some p ∧ p ≤ 0)
    (hexp : exportEnvOk args env) :
    (∃ m, LogEvent.warning m ∈ (runPipeline args env).logs) ∧
    (runPipeline args env).exitCode = 0 ∧
    (args.noExport = false →
      (runPipeline args env).written =
        (exportFilenames (formatTS env.now)).map (fun f => (args.outputDir, f))) := by
  obtain ⟨m, hm⟩ := qualityLogs_warning hviol
  cases hne : args.noExport with
  | true =>
      obtain ⟨he, hl, -⟩ := runPipeline_noExport_fields h hne
      refine ⟨⟨m, ?_⟩, he, ?_⟩
      · rw [hl]; exact List.mem_append_left _ hm
      · intro hfalse; cases hfalse
  | false =>
      rcases hexp with hno | hd
      · rw [hne] at hno; cases hno
      · obtain ⟨he, hl, hw⟩ := runPipeline_export_fields h hne hd
        refine ⟨⟨m, ?_⟩, he, fun _ => hw⟩
        rw [hl]; exact List.mem_append_left _ hm

theorem claim3_witness :
    (∃ m, LogEvent.warning m ∈ (runPipeline argsW envViol).logs) ∧
    (runPipeline argsW envViol).exitCode = 0 ∧
    (argsW.noExport = false →
      (runPipeline argsW envViol).written =
        (exportFilenames (formatTS envViol.now)).map (fun f => (argsW.outputDir, f))) :=
  claim3_violations_warn_only argsW envViol rowsViol rfl
    ⟨rowViol, List.mem_singleton_self _, Or.inl rfl⟩
    (Or.inr (Or.inl (by decide)))

/-- C5: for every run invoked with `--no-export`, no file is written and
the filesystem's directories are unchanged: the export step is skipped
entirely. -/
theorem claim5_no_export_writes_nothing (args : Args) (env : Env)
    (h : args.noExport = true) :
    (runPipeline args env).written = [] ∧ (runPipeline args env).dirs = env.fs.dirs := by
  unfold runPipeline
  cases hf : env.fs.file args.dataFile <;> simp [h]

theorem claim5_witness :
    (runPipeline argsNoExp envW).written = [] ∧
    (runPipeline argsNoExp envW).dirs = envW.fs.dirs :=
  claim5_no_export_writes_nothing argsNoExp envW rfl

/-- C4: for every loaded table state, the category and regional result
sets are each sorted in descending order of `total_revenue` (NULL totals
last, as DuckDB orders them), and each result row's `total_revenue` is
`SUM(quantity * price)` over exactly that group's rows. -/
theorem claim4_analytics_sorted_by_revenue (rows : List SalesRecord) :
    ((categoryAnalysis rows).Pairwise catGe ∧
      ∀ c ∈ categoryAnalysis rows,
        c.total_revenue =
          sqlSumQ ((rows.filter (fun r => r.product_category = c.product_category)).map
            rowRevenueOpt)) ∧
    ((regionalAnalysis rows).Pairwise regGe ∧
      ∀ g ∈ regionalAnalysis rows,
        g.total_revenue =
          sqlSumQ ((rows.filter (fun r => r.region = g.region)).map rowRevenueOpt)) := by
  refine ⟨⟨List.sorted_insertionSort catGe _, ?_⟩, ⟨List.sorted_insertionSort regGe _, ?_⟩⟩
  · intro c hc
    rw [categoryAnalysis, List.mem_insertionSort] at hc
    obtain ⟨k, _, rfl⟩ := List.mem_map.mp hc
    rfl
  · intro g hg
    rw [regionalAnalysis, List.mem_insertionSort] at hg
    obtain ⟨k, _, rfl⟩ := List.mem_map.mp hg
    rfl

/-- C6: two exporting runs over the same output directory whose export
timestamps fall in different seconds write disjoint sets of file names —
each run writes exactly the three timestamped files, and no file of one
run is overwritten by the other. -/
theorem claim6_runs_coexist (args1 args2 : Args) (env1 env2 : Env)
    (rows1 rows2 : List SalesRecord)
    (h1 : env1.fs.file args1.dataFile = some rows1)
    (h2 : env2.fs.file args2.dataFile = some rows2)
    (hne1 : args1.noExport = false) (hne2 : args2.noExport = false)
    (hd1 : dirOk args1 env1) (hd2 : dirOk args2 env2)
    (hv1 : validDT env1.now) (hv2 : validDT env2.now)
    (hts : env1.now ≠ env2.now) :
    (runPipeline args1 env1).written.map Prod.snd = exportFilenames (formatTS env1.now) ∧
    (runPipeline args2 env2).written.map Prod.snd = exportFilenames (formatTS env2.now) ∧
    List.Disjoint (exportFilenames (formatTS env1.now))
      (exportFilenames (formatTS env2.now)) := by
  obtain ⟨-, -, hw1⟩ := runPipeline_export_fields h1 hne1 hd1
  obtain ⟨-, -, hw2⟩ := runPipeline_export_fields h2 hne2 hd2
  refine ⟨?_, ?_, ?_⟩
  · rw [hw1, List.map_map]; rfl
  · rw [hw2, List.map_map]; rfl
  · exact exportFilenames_disjoint (fun he => hts (formatTS_inj hv1 hv2 he))

theorem claim6_witness :
    (runPipeline argsW envW).written.map Prod.snd = exportFilenames (formatTS envW.now) ∧
    (runPipeline argsW envW2).written.map Prod.snd = exportFilenames (formatTS envW2.now) ∧
    List.Disjoint (exportFilenames (formatTS envW.now))
      (exportFilenames (formatTS envW2.now)) :=
  claim6_runs_coexist argsW argsW envW envW2 rowsW rowsW rfl rfl rfl rfl
    (Or.inl (by decide)) (Or.inl (by decide)) (by decide) (by decide) (by decide)

/-- C10: the three files of one export invocation share one identical
timestamp string: the timestamp is taken once per invocation, so the
summary, category and regional file names always agree on it. -/
theorem claim10_single_timestamp (args : Args) (env : Env) (rows : List SalesRecord)
    (h : env.fs.file args.dataFile = some rows) (hne : args.noExport = false)
    (hd : dirOk args env) :
    ∃ ts, (runPipeline args env).written =
      [(args.outputDir, summaryName ts), (args.outputDir, categoryName ts),
        (args.outputDir, regionalName ts)] := by
  obtain ⟨-, -, hw⟩ := runPipeline_export_fields h hne hd
  exact ⟨formatTS env.now, by rw [hw]; rfl⟩

theorem claim10_witness :
    ∃ ts, (runPipeline argsW envW).written =
      [(argsW.outputDir, summaryName ts), (argsW.outputDir, categoryName ts),
        (argsW.outputDir, regionalName ts)] :=
  claim10_single_timestamp argsW envW rowsW rfl rfl (Or.inl (by decide))

/-- C7 as stated is false: `export_results` calls
`Path.mkdir(exist_ok=True)` without `parents=True`, so for an output
directory path whose parent does not exist the directory is not created
and the call raises `FileNotFoundError`; a run given such a path fails
with exit code 1 instead of succeeding. -/
theorem claim7_counterexample :
    mkdirExistOk [] ["a", "b"] =
      Except.error (PipelineError.fileNotFound "missing parent of output directory") ∧
    ¬ (∀ (dirs : List (List String)) (p : List String),
        ∃ dirs1, mkdirExistOk dirs p = Except.ok dirs1 ∧ p ∈ dirs1) ∧
    (runPipeline ⟨"data/sample.csv", ["a", "b"], false, false⟩ envW).exitCode = 1 ∧
    ["a", "b"] ∉ (runPipeline ⟨"data/sample.csv", ["a", "b"], false, false⟩ envW).dirs := by
  refine ⟨rfl, ?_, rfl, by decide⟩
  intro hall
  obtain ⟨d1, hd1, -⟩ := hall [] ["a", "b"]
  simp [mkdirExistOk] at hd1

/-- C7 (amended): for every output directory path that already exists,
or whose parent exists (a single path component counts, its parent being
the working directory), the Exporter's `mkdir(exist_ok=True)` succeeds:
it creates the directory when absent and is a no-op when it already
exists.  Without that proviso the call raises `FileNotFoundError`. -/
theorem claim7_mkdir_idempotent (dirs : List (List String)) (p : List String)
    (hparent : p ∈ dirs ∨ p.length ≤ 1 ∨ p.dropLast ∈ dirs) :
    ∃ dirs1, mkdirExistOk dirs p = Except.ok dirs1 ∧ p ∈ dirs1 ∧
      (p ∈ dirs → dirs1 = dirs) := by
  unfold mkdirExistOk
  split
  · rename_i hmem
    exact ⟨dirs, rfl, hmem, fun _ => rfl⟩
  · rename_i hmem
    split
    · exact ⟨p :: dirs, rfl, List.mem_cons_self _ _, fun hin => absurd hin hmem⟩
    · rename_i hpar
      exact absurd hparent (by tauto)

theorem claim7_witness :
    ∃ dirs1, mkdirExistOk [["output"]] ["output"] = Except.ok dirs1 ∧
      ["output"] ∈ dirs1 ∧ (["output"] ∈ [["output"]] → dirs1 = [["output"]]) :=
  claim7_mkdir_idempotent [["output"]] ["output"] (Or.inl (by decide))

/-- C8: the validator exits 0 iff every check other than the sample-data
check passes; the sample-data check always returns pass (a missing
`data/sample.csv` is only reported as a warning line); any other outcome
exits 1 and prints the troubleshooting section. -/
theorem claim8_validator_exit (e : SysEnv) :
    ((testSetupMain e).1 = 0 ↔
      ((checkPythonVersion e).1 = true ∧ (checkPackageImports e).1 = true ∧
        (checkPackageVersions e).1 = true ∧ (checkDirectoryStructure e).1 = true ∧
        (checkRequirementsFile e).1 = true)) ∧
    (checkSampleData e).1 = true ∧
    (e.fileExists "data/sample.csv" = false → OutLine.sampleWarn ∈ (testSetupMain e).2) ∧
    ((testSetupMain e).1 ≠ 0 → (testSetupMain e).1 = 1 ∧
      OutLine.remediation ∈ (testSetupMain e).2) := by
  refine ⟨?_, checkSampleData_fst e, ?_, ?_⟩
  · rw [testSetupMain_fst]
    split
    · rename_i hc
      simp only [Bool.and_eq_true] at hc
      constructor
      · intro _; tauto
      · intro _; rfl
    · rename_i hc
      constructor
      · intro h; exact absurd h (by norm_num)
      · intro hall
        exfalso
        apply hc
        simp only [Bool.and_eq_true]
        tauto
  · intro hf
    have hmem : OutLine.sampleWarn ∈ checkLines e := by
      unfold checkLines checkSampleData
      rw [hf]
      simp
    exact checkLines_subset e hmem
  · intro hne
    have hor : (testSetupMain e).1 = 0 ∨ (testSetupMain e).1 = 1 := by
      rw [testSetupMain_fst]
      split
      · exact Or.inl rfl
      · exact Or.inr rfl
    rcases hor with h0 | h1
    · exact absurd h0 hne
    · refine ⟨h1, ?_⟩
      unfold testSetupMain
      split
      · rename_i hcond
        exfalso
        apply hne
        unfold testSetupMain
        rw [if_pos hcond]
      · simp

/-- C9: when exactly one of the six required libraries fails to import,
the import check prints a failure line for that library and reports
overall failure (the validator exits 1), while every other check still
runs and its result lines appear in the printed output. -/
theorem claim9_one_missing_library (e : SysEnv) (p : String) (hp : p ∈ packageNames)
    (hmiss : e.installed p = false)
    (hothers : ∀ q ∈ packageNames, q ≠ p → e.installed q = true) :
    OutLine.pkgFail p ∈ (testSetupMain e).2 ∧
    (∀ q ∈ packageNames, q ≠ p → OutLine.pkgPass q ∈ (testSetupMain e).2) ∧
    (checkPackageImports e).1 = false ∧
    (testSetupMain e).1 = 1 ∧
    (checkPythonVersion e).2 ⊆ (testSetupMain e).2 ∧
    (checkPackageVersions e).2 ⊆ (testSetupMain e).2 ∧
    (checkDirectoryStructure e).2 ⊆ (testSetupMain e).2 ∧
    (checkSampleData e).2 ⊆ (testSetupMain e).2 ∧
    (checkRequirementsFile e).2 ⊆ (testSetupMain e).2 := by
  have hcl := checkLines_subset e
  have himp : (checkPackageImports e).1 = false := by
    unfold checkPackageImports
    dsimp only
    rw [Bool.eq_false_iff]
    intro hall
    rw [List.all_eq_true] at hall
    have hptrue := hall p hp
    rw [hmiss] at hptrue
    exact absurd hptrue (by decide)
  have himpsub : (checkPackageImports e).2 ⊆ (testSetupMain e).2 := fun x hx =>
    hcl (by unfold checkLines; simp only [List.mem_append]; tauto)
  refine ⟨?_, ?_, himp, ?_, ?_, ?_, ?_, ?_, ?_⟩
  · refine himpsub ?_
    unfold checkPackageImports
    dsimp only
    refine List.mem_map.mpr ⟨p, hp, ?_⟩
    rw [hmiss]
    rfl
  · intro q hq hqp
    refine himpsub ?_
    unfold checkPackageImports
    dsimp only
    refine List.mem_map.mpr ⟨q, hq, ?_⟩
    rw [hothers q hq hqp]
    rfl
  · rw [testSetupMain_fst, himp]
    simp
  · exact fun x hx => hcl (by unfold checkLines; simp only [List.mem_append]; tauto)
  · exact fun x hx => hcl (by unfold checkLines; simp only [List.mem_append]; tauto)
  · exact fun x hx => hcl (by unfold checkLines; simp only [List.mem_append]; tauto)
  · exact fun x hx => hcl (by unfold checkLines; simp only [List.mem_append]; tauto)
  · exact fun x hx => hcl (by unfold checkLines; simp only [List.mem_append]; tauto)

def sysEnvW : SysEnv :=
  ⟨3, 11, 4, fun s => !(s == "dlt"), fun _ => true, fun _ => true, fun _ => true⟩

theorem claim9_witness :
    OutLine.pkgFail "dlt" ∈ (testSetupMain sysEnvW).2 ∧
    (∀ q ∈ packageNames, q ≠ "dlt" → OutLine.pkgPass q ∈ (testSetupMain sysEnvW).2) ∧
    (checkPackageImports sysEnvW).1 = false ∧
    (testSetupMain sysEnvW).1 = 1 ∧
    (checkPythonVersion sysEnvW).2 ⊆ (testSetupMain sysEnvW).2 ∧
    (checkPackageVersions sysEnvW).2 ⊆ (testSetupMain sysEnvW).2 ∧
    (checkDirectoryStructure sysEnvW).2 ⊆ (testSetupMain sysEnvW).2 ∧
    (checkSampleData sysEnvW).2 ⊆ (testSetupMain sysEnvW).2 ∧
    (checkRequirementsFile sysEnvW).2 ⊆ (testSetupMain sysEnvW).2 :=
  claim9_one_missing_library sysEnvW "dlt" (by decide) rfl (by decide)
